import Mathlib

/-!
Verification of the mojilab batch image-synthesis pipeline
(`src/app/api/test-flux-lora/route.ts` and `src/app/api/emoticons/save/route.ts`).

The TypeScript route handlers are shallowly embedded as pure Lean functions.
External collaborators (the Replicate synthesis service, the Gemini language
service, Supabase storage and database) are passed in as oracle parameters:
a call outcome is an `Except`/`Option` value supplied by the oracle, indexed
by the item the source code calls it for.  JavaScript truthiness on optional
strings and arrays is modelled explicitly (`jsTruthy`, `jsTruthyList`).
-/

deriving instance DecidableEq for Except

namespace Mojilab

/-- JS truthiness of a possibly-undefined string: `undefined` and `""` are falsy. -/
def jsTruthy : Option String → Bool
  | none => false
  | some s => !(s == "")

/-- JS truthiness of a string value alone: `""` is falsy, anything else truthy. -/
def jsTruthyStr (s : String) : Bool := !(s == "")

/-- Validity of an optional array field as checked by the route
(`!xs || !Array.isArray(xs) || xs.length === 0` fails validation). -/
def jsTruthyList : Option (List String) → Bool
  | none => false
  | some l => !l.isEmpty

/-- `xs?.[i]` on an optional array. -/
def jsIdx (l : Option (List String)) (i : Nat) : Option String :=
  l.bind fun xs => xs[i]?

/-- `a || d` where `a` is an optional string and `d` a string default. -/
def jsOrD (a : Option String) (d : String) : String :=
  if jsTruthy a then a.getD "" else d

/-- Request mode field of `ConvertRequest` (route.ts line 47). -/
inductive Mode
  | text2img
  | img2img
  | preview
  | batch
deriving DecidableEq, Repr

/-- `mode === 'preview' || mode === 'batch' ? 'text2img' : mode` (route.ts line 179). -/
def actualMode : Mode → Mode
  | Mode.preview => Mode.text2img
  | Mode.batch => Mode.text2img
  | m => m

/-- `isPreviewMode = mode === 'preview'` (route.ts line 180). -/
def isPreviewMode (m : Mode) : Bool := m == Mode.preview

/-- `isBatchMode = mode === 'batch'` (route.ts line 181). -/
def isBatchMode (m : Mode) : Bool := m == Mode.batch

/-- Style variant field (route.ts line 48). -/
inductive Style
  | pencil
  | pen
deriving DecidableEq, Repr

/-- `STYLE_PROMPTS` table (route.ts lines 60-63). -/
def STYLE_PROMPTS : Style → String
  | Style.pencil => "soft pencil sketch, light graphite strokes, gentle pencil shading, delicate line art, thin sketchy lines, subtle pencil texture, hand-drawn with soft strokes, loose pencil drawing, light sketchy style, faint outlines"
  | Style.pen => "VERY BOLD thick black marker pen, EXTREMELY STRONG ink outlines, HEAVY black borders, THICK chunky pen strokes, bold cartoon style, SOLID black lines, confident bold ink drawing, thick marker technique, HEAVY pen pressure, STRONG contrast, clean bold style"

/-- `VALID_CATEGORIES` (route.ts line 66). -/
def VALID_CATEGORIES : List String :=
  ["cute", "daily", "work", "love", "funny", "animal", "food", "seasonal"]

/-! ## Translation cache (route.ts lines 112-144)

`translationCache` is a module-level `Map<string, string>`.  The state also
records, for specification purposes, the list of texts sent to the external
language service (`svcCalls`), in call order: each entry is one invocation of
`model.generateContent` inside `translateToEnglish`. -/

structure TransState where
  cache : List (String × String)
  svcCalls : List String
deriving DecidableEq, Repr

/-- `translateToEnglish` (route.ts lines 114-144).  `svc text` is the outcome of
the external language-service call: `some tr` when the call returns translation
`tr`, `none` when it throws.  On a cache hit the cached value is returned with
no service call; on a miss the service is called, a successful result is stored
in the cache, and a failure returns the original text (fail-open) without
caching anything. -/
def translateToEnglish (svc : String → Option String) (st : TransState) (text : String) :
    String × TransState :=
  match st.cache.lookup text with
  | some cached => (cached, st)
  | none =>
    let st1 : TransState := { st with svcCalls := st.svcCalls ++ [text] }
    match svc text with
    | some translation => (translation, { st1 with cache := st1.cache ++ [(text, translation)] })
    | none => (text, st1)

/-! ## Category classifier (route.ts lines 69-109)

`classifyCategories` sends one prompt to the language service, trims the
response, applies the regex `/\[.*\]/`, `JSON.parse`s the match, and filters to
`VALID_CATEGORIES`; any throw (service error or parse error) and the no-match
case both produce the default `['daily']`.

The regex and `JSON.parse` are embedded at character level.  Simplifications,
noted here once: only `'\n'` is treated as a line terminator (the regex `.`
also excludes `'\r'` and two rare Unicode separators), `\uXXXX` string escapes
and nested arrays/objects inside the matched array are treated as parse
failures (the classifier prompt requests a flat array of short slugs), and the
number token is recognized loosely.  Elements of a parsed array are
`Option String`: `some s` for a JSON string, `none` for a non-string scalar
(which `VALID_CATEGORIES.includes` rejects anyway). -/

/-- JSON whitespace. -/
def isJsonWs (c : Char) : Bool := c == ' ' || c == '\t' || c == '\n' || c == '\r'

/-- Whitespace stripped by JS `String.prototype.trim` (ASCII portion; the rare
Unicode space characters are not modelled). -/
def isJsTrimWs (c : Char) : Bool :=
  c == ' ' || c == '\t' || c == '\n' || c == '\r' || c == Char.ofNat 11 || c == Char.ofNat 12

/-- JS `text.trim()` (route.ts line 94), character-level. -/
def jsTrim (s : String) : String :=
  String.mk (((s.data.dropWhile isJsTrimWs).reverse.dropWhile isJsTrimWs).reverse)

/-- Index of the last `']'` in a character list, if any. -/
def lastCloseBracketIdx (cs : List Char) : Option Nat :=
  ((cs.enum.filter (fun p => p.2 == ']')).map (fun p => p.1)).getLast?

/-- Characters up to the end of the current line (regex `.` does not cross lines). -/
def currentLine (cs : List Char) : List Char := cs.takeWhile (fun c => !(c == '\n'))

/-- `text.match(/\[.*\]/)`: the leftmost `'['` with a `']'` later on the same
line starts the match, which greedily extends to the last such `']'`. -/
def matchBracketArray : List Char → Option (List Char)
  | [] => none
  | c :: rest =>
    if c == '[' then
      let seg := currentLine (c :: rest)
      match lastCloseBracketIdx seg with
      | some j => some (seg.take (j + 1))
      | none => matchBracketArray rest
    else matchBracketArray rest

/-- Body of a JSON string literal after the opening quote; returns the decoded
content and the remainder after the closing quote. -/
def parseJsonStringBody (fuel : Nat) (acc : List Char) (cs : List Char) :
    Option (List Char × List Char) :=
  match fuel, cs with
  | 0, _ => none
  | _, [] => none
  | fuel + 1, c :: rest =>
    if c == '"' then some (acc.reverse, rest)
    else if c == '\\' then
      match rest with
      | [] => none
      | e :: rest2 =>
        let dec : Option Char :=
          if e == '"' then some '"'
          else if e == '\\' then some '\\'
          else if e == '/' then some '/'
          else if e == 'n' then some '\n'
          else if e == 't' then some '\t'
          else if e == 'r' then some '\r'
          else if e == 'b' then some (Char.ofNat 8)
          else if e == 'f' then some (Char.ofNat 12)
          else none
        match dec with
        | some d => parseJsonStringBody fuel (d :: acc) rest2
        | none => none
    else parseJsonStringBody fuel (c :: acc) rest

/-- Characters that may appear in a (loosely recognized) JSON number token. -/
def isNumChar (c : Char) : Bool :=
  c.isDigit || c == '-' || c == '+' || c == '.' || c == 'e' || c == 'E'

/-- One JSON scalar: a string literal (`some content`), or a number /
`true` / `false` / `null` (`none`); returns the remainder. -/
def parseJsonScalar (fuel : Nat) (cs : List Char) : Option (Option String × List Char) :=
  match cs with
  | [] => none
  | c :: rest =>
    if c == '"' then
      match parseJsonStringBody fuel [] rest with
      | some (content, rest2) => some (some (String.mk content), rest2)
      | none => none
    else if isNumChar c then
      some (none, (c :: rest).dropWhile isNumChar)
    else if (c :: rest).take 4 == "true".data then some (none, (c :: rest).drop 4)
    else if (c :: rest).take 5 == "false".data then some (none, (c :: rest).drop 5)
    else if (c :: rest).take 4 == "null".data then some (none, (c :: rest).drop 4)
    else none

/-- Comma-separated scalars up to and including the closing `']'`. -/
def parseJsonArrayElems (fuel : Nat) (cs : List Char) :
    Option (List (Option String) × List Char) :=
  match fuel with
  | 0 => none
  | fuel + 1 =>
    match parseJsonScalar fuel cs with
    | none => none
    | some (v, rest) =>
      let rest2 := rest.dropWhile isJsonWs
      match rest2 with
      | ']' :: rest3 => some ([v], rest3)
      | ',' :: rest3 =>
        match parseJsonArrayElems fuel (rest3.dropWhile isJsonWs) with
        | some (vs, rest4) => some (v :: vs, rest4)
        | none => none
      | _ => none

/-- `JSON.parse` of a full string expected to be a flat JSON array of scalars;
`none` models a `JSON.parse` throw. -/
def parseJsonArray (cs : List Char) : Option (List (Option String)) :=
  match cs.dropWhile isJsonWs with
  | '[' :: rest =>
    let rest1 := rest.dropWhile isJsonWs
    match rest1 with
    | ']' :: rest2 => if (rest2.dropWhile isJsonWs).isEmpty then some [] else none
    | _ =>
      match parseJsonArrayElems (cs.length + 1) rest1 with
      | some (vs, rest2) => if (rest2.dropWhile isJsonWs).isEmpty then some vs else none
      | none => none
  | _ => none

/-- The composition performed on a successful language-service response text:
trim, regex match, `JSON.parse` (route.ts lines 94-99). -/
def extractedJsonArray (raw : String) : Option (List (Option String)) :=
  match matchBracketArray (jsTrim raw).data with
  | none => none
  | some m => parseJsonArray m

/-- `classifyCategories` (route.ts lines 69-109) as a function of the
language-service outcome (`none` = the call threw).  The theme/character
arguments only shape the prompt text, which the oracle already accounts for,
so they are not parameters here. -/
def classifyCategories (svcResp : Option String) : List String :=
  match svcResp with
  | none => ["daily"]
  | some raw =>
    match extractedJsonArray raw with
    | none => ["daily"]
    | some elems =>
      (elems.filterMap id).filter (fun c => VALID_CATEGORIES.contains c)

/-! ## Prompt compiler (route.ts lines 245-313)

String composition is embedded verbatim.  The translation steps thread the
process-wide `TransState`. -/

/-- Lines 250-257: translate the user prompt; append the theme context clause
only when the theme is truthy and the request is in batch mode. -/
def composeFinalPromptT2I (svc : String → Option String) (st : TransState)
    (userPrompt : String) (theme : Option String) (batchMode : Bool) :
    String × TransState :=
  let p1 := translateToEnglish svc st userPrompt
  if jsTruthy theme && batchMode then
    let p2 := translateToEnglish svc p1.2 (theme.getD "")
    (p1.1 ++ ", in context of " ++ p2.1, p2.2)
  else
    (p1.1, p1.2)

/-- Lines 280-296 (img2img): if a prompt is given (truthy), translate it and
append the theme context clause whenever the theme is truthy — with no
batch-mode condition; with no prompt the compiled subject is empty. -/
def composeFinalPromptI2I (svc : String → Option String) (st : TransState)
    (promptOpt : Option String) (theme : Option String) :
    String × TransState :=
  if jsTruthy promptOpt then
    let p1 := translateToEnglish svc st (promptOpt.getD "")
    if jsTruthy theme then
      let p2 := translateToEnglish svc p1.2 (theme.getD "")
      (p1.1 ++ ", in context of " ++ p2.1, p2.2)
    else
      (p1.1, p1.2)
  else
    ("", st)

/-- Line 260: style prefix for text2img. -/
def stylePrefixT2I (style : Option Style) : String :=
  match style with
  | some s => STYLE_PROMPTS s ++ ", "
  | none => "hand-drawn sketch with marker pen strokes, pencil texture, rough line art style, thick uneven marker lines, casual pencil shading, sketchy stroke-based drawing, "

/-- Lines 263-265: monochrome vs color clause (same strings on both paths). -/
def colorClause (monochromeOnly : Bool) : String :=
  if monochromeOnly then
    "black and white only, grayscale shading, NO colors, monochrome line art, pencil hatching for shadows, simple gray tones, NO blush, NO blushing"
  else
    "colorful, vibrant colors, soft pastel tones"

/-- Line 267: the full text2img prompt. -/
def fullPromptT2I (finalPrompt : String) (style : Option Style) (monochromeOnly : Bool) : String :=
  finalPrompt ++ ", " ++ stylePrefixT2I style ++ "strong black outlines, bold black borders, thick black contour lines, clear black edges, " ++ colorClause monochromeOnly ++ ", chibi proportions with slightly bigger head, compact body, very short stubby limbs, small arms and legs, NO tall body, NO long limbs, asymmetric wonky proportions, crooked uneven features, lopsided asymmetric face, simple flat dash eyes (- -) or simple dot eyes (• •), NO round eyes, NO circular pupils, NO eyeballs, NO shiny eyes, absolutely NO long tail, short stubby tail only or no tail, imperfect hand-drawn shapes, loose strokes, white background"

/-- Line 299: style prefix for img2img. -/
def stylePrefixI2I (style : Option Style) : String :=
  match style with
  | some s => STYLE_PROMPTS s ++ ", "
  | none => "rough doodle sketch, messy hand-drawn lines, sketchy unpolished style, "

/-- Lines 306-308: the full img2img prompt (the variant with or without the
compiled subject is selected by the truthiness of `finalPrompt`). -/
def stylePromptI2I (finalPrompt : String) (style : Option Style) (monochromeOnly : Bool) : String :=
  if jsTruthyStr finalPrompt then
    finalPrompt ++ ", " ++ stylePrefixI2I style ++ "strong black outlines, bold black borders, thick black contour lines, clear black edges, " ++ colorClause monochromeOnly ++ ", chibi proportions with slightly bigger head, compact body, very short stubby limbs, small arms and legs, NO tall body, NO long limbs, with small simple flat eyes (NO sparkling or shining eyes, NO round pupils), asymmetric crooked face shape, wonky irregular proportions, imperfect shapes, casual drawing, loose strokes, absolutely NO long tail, short stubby tail only or no tail, white background"
  else
    stylePrefixI2I style ++ "strong black outlines, bold black borders, thick black contour lines, clear black edges, " ++ colorClause monochromeOnly ++ ", chibi proportions with slightly bigger head, compact body, very short stubby limbs, small arms and legs, NO tall body, NO long limbs, with small simple flat eyes (NO sparkling or shining eyes, NO round pupils), asymmetric crooked face shape, wonky irregular proportions, imperfect shapes, casual drawing, loose strokes, white background"

/-! ## Synthesis service responses and URL extraction (route.ts lines 316-338, 354-386)

`replicate.run` resolves to a value of heterogeneous shape, or rejects.  The
shape is modelled as `SynthOutput`; for an object, `urlField` is the value of
`output.url || output.output || output[0]` when that chain is truthy, `none`
when all three are falsy.  The oracle supplying outcomes is indexed by the
item number; the compiled prompt is passed to the service in the source but a
per-item oracle already determines the outcome. -/

inductive SynthOutput
  | arr (xs : List String)
  | str (s : String)
  | obj (urlField : Option String)
  | other (typeName : String)
deriving DecidableEq, Repr

/-- `String(output[0])` on a JS array: `"undefined"` when the array is empty. -/
def jsStringHead : List String → String
  | [] => "undefined"
  | x :: _ => x

/-- JS `s.startsWith(p)`, character-level. -/
def jsStartsWith (s p : String) : Bool := p.data.isPrefixOf s.data

/-- Stage-1 output extraction (lines 319-338): probe the shape, then require
the extracted value to start with `http`. -/
def extractStage1Url (output : SynthOutput) : Except String String :=
  let urlE : Except String String :=
    match output with
    | SynthOutput.arr xs => Except.ok (jsStringHead xs)
    | SynthOutput.str s => Except.ok s
    | SynthOutput.obj (some u) => Except.ok u
    | SynthOutput.obj none => Except.error "Cannot find URL in output object"
    | SynthOutput.other t => Except.error ("Invalid output format: " ++ t)
  match urlE with
  | Except.error e => Except.error e
  | Except.ok u =>
    if jsStartsWith u "http" then Except.ok u
    else Except.error "Invalid URL returned from Replicate"

/-- Stage-2 output extraction (lines 374-383): same shape probing, but with no
`else` branch and no URL check — when no branch matches (object without a URL
field, or a non-array/non-string/non-object value), `finalUrl` keeps the
Stage-1 URL. -/
def extractStage2Url (stage1Url : String) (output : SynthOutput) : String :=
  match output with
  | SynthOutput.arr xs => jsStringHead xs
  | SynthOutput.str s => s
  | SynthOutput.obj (some u) => u
  | SynthOutput.obj none => stage1Url
  | SynthOutput.other _ => stage1Url

/-! ## Per-item pipeline and the sequential batch loop (route.ts lines 225-444) -/

/-- One entry of `results` (lines 417-423 / 428-434).  `prompt` and
`originalDataUrl` echo the input item per mode. -/
structure ItemResult where
  index : Nat
  prompt : Option String
  originalDataUrl : Option String
  generatedUrl : Option String
  transparentDataUrl : Option String
  success : Bool
  error : Option String
deriving DecidableEq, Repr

/-- Outcomes of the external calls made while processing item `i`:
`stage1 i` / `stage2 i` are the two `replicate.run` promises (`Except.error`
models a rejection), `fetchResize i` is the result of the fetch + sharp resize
+ PNG encode block (`none` models a throw there), and `translateSvc` is the
language service used by `translateToEnglish`. -/
structure SynthOracle where
  translateSvc : String → Option String
  stage1 : Nat → Except String SynthOutput
  stage2 : Nat → Except String SynthOutput
  fetchResize : Nat → Option String

/-- The echo fields `(isText2Img ? { prompt: prompts![i] } : { originalDataUrl: images![i] })`. -/
def itemEcho (isT2I : Bool) (prompts images : Option (List String)) (i : Nat) :
    Option String × Option String :=
  if isT2I then ((prompts.getD [])[i]?, none) else (none, (images.getD [])[i]?)

/-- The failure record pushed by the per-item `catch` (lines 428-434). -/
def mkFailure (isT2I : Bool) (prompts images : Option (List String)) (i : Nat) (e : String) :
    ItemResult :=
  { index := i
    prompt := (itemEcho isT2I prompts images i).1
    originalDataUrl := (itemEcho isT2I prompts images i).2
    generatedUrl := none
    transparentDataUrl := none
    success := false
    error := some e }

/-- The success record pushed at lines 417-423. -/
def mkSuccess (isT2I : Bool) (prompts images : Option (List String)) (i : Nat)
    (convertedUrl : String) (transparentDataUrl : Option String) : ItemResult :=
  { index := i
    prompt := (itemEcho isT2I prompts images i).1
    originalDataUrl := (itemEcho isT2I prompts images i).2
    generatedUrl := some convertedUrl
    transparentDataUrl := transparentDataUrl
    success := true
    error := none }

/-- One iteration of the generation loop (lines 230-435): compile the prompt
(threading the translation cache), run Stage 1, extract and validate its URL,
run Stage 2 only in non-preview text2img mode, then post-process.  A throw
anywhere before the push lands in the per-item `catch`. -/
def processItem (o : SynthOracle) (mode : Mode) (style : Option Style) (theme : Option String)
    (monochromeOnly : Bool) (prompts images : Option (List String))
    (st : TransState) (i : Nat) : ItemResult × TransState :=
  let isT2I := actualMode mode == Mode.text2img
  let comp : String × TransState :=
    if isT2I then
      composeFinalPromptT2I o.translateSvc st ((prompts.getD [])[i]?.getD "") theme
        (isBatchMode mode)
    else
      composeFinalPromptI2I o.translateSvc st (jsIdx prompts i) theme
  let st1 := comp.2
  let _compiledPrompt :=
    if isT2I then fullPromptT2I comp.1 style monochromeOnly
    else stylePromptI2I comp.1 style monochromeOnly
  match o.stage1 i with
  | Except.error e => (mkFailure isT2I prompts images i e, st1)
  | Except.ok out =>
    match extractStage1Url out with
    | Except.error e => (mkFailure isT2I prompts images i e, st1)
    | Except.ok imageUrl =>
      if isT2I && !(isPreviewMode mode) then
        match o.stage2 i with
        | Except.error e => (mkFailure isT2I prompts images i e, st1)
        | Except.ok out2 =>
          (mkSuccess isT2I prompts images i (extractStage2Url imageUrl out2) (o.fetchResize i),
            st1)
      else
        (mkSuccess isT2I prompts images i imageUrl (o.fetchResize i), st1)

/-- The strictly sequential `for` loop (line 225): items processed one at a
time in index order, the translation state threaded between them, each
iteration appending exactly one result. -/
def runItems (o : SynthOracle) (mode : Mode) (style : Option Style) (theme : Option String)
    (monochromeOnly : Bool) (prompts images : Option (List String)) :
    TransState → List Nat → List ItemResult × TransState
  | st, [] => ([], st)
  | st, i :: rest =>
    let p := processItem o mode style theme monochromeOnly prompts images st i
    let q := runItems o mode style theme monochromeOnly prompts images p.2 rest
    (p.1 :: q.1, q.2)

/-! ## Request, persistence coordinator and the POST handler
(route.ts lines 43-57, 169-222, 446-578) -/

/-- `ConvertRequest` (route.ts lines 43-57) after destructuring with defaults
(`mode = 'text2img'`, `monochromeOnly = true`, `saveToDb = false`). -/
structure ConvertRequest where
  id : Option String
  images : Option (List String)
  prompts : Option (List String)
  mode : Mode
  style : Option Style
  theme : Option String
  monochromeOnly : Bool
  saveToDb : Bool
  userId : Option String
  character : Option String
  emotionNames : Option (List String)
deriving Repr

/-- One row collected into `sceneRecords` (route.ts lines 521-532). -/
structure SceneRecord where
  series_id : String
  scene_number : Nat
  title : String
  narrative : String
  prompt : String
  image_url : String
deriving DecidableEq, Repr

/-- Outcomes of the external calls of the auto-save block (lines 451-557):
`clientOk` is whether `getSupabaseClient()` finds its environment variables,
`classifySvc` is the language-service outcome for `classifyCategories`,
`seriesInsert` is the `emoticon_series` insert (ok = the generated series id),
`upload i` is whether the storage upload (and the straight-line code around
it) for scene index `i` succeeds, `publicUrl i` is `getPublicUrl`'s result,
and `bulkInsertOk` is the `emoticon_scenes` bulk insert. -/
structure PersistOracle where
  clientOk : Bool
  classifySvc : Option String
  seriesInsert : Except String String
  upload : Nat → Bool
  publicUrl : Nat → String
  bulkInsertOk : Bool

/-- The auto-save guard (line 451):
`saveToDb && userId && character && successCount > 0`. -/
def persistGuard (req : ConvertRequest) (successCount : Nat) : Bool :=
  req.saveToDb && jsTruthy req.userId && jsTruthy req.character && decide (0 < successCount)

/-- The record pushed for one successfully uploaded scene (lines 494-532);
`p` is the `(idx, result)` pair of the enumerated `successfulResults`.
Returns `none` when the upload for this item fails (the item is skipped,
the rest continue). -/
def sceneRecordOf (po : PersistOracle) (req : ConvertRequest) (seriesId : String)
    (p : Nat × ItemResult) : Option SceneRecord :=
  if po.upload p.2.index then
    let emotionName :=
      jsOrD (jsIdx req.emotionNames p.2.index)
        (jsOrD (jsIdx req.prompts p.2.index) ("Scene " ++ toString (p.1 + 1)))
    some { series_id := seriesId
           scene_number := p.2.index
           title := emotionName
           narrative := ""
           prompt := (req.character.getD "") ++ " - " ++ emotionName
           image_url := po.publicUrl p.2.index }
  else none

/-- The collection built by the upload fan-out (lines 492-537).  The concurrent
pushes are modelled in the enumeration order of `successfulResults`; only the
multiset of records is determined by the source, and the properties proved
below depend only on that. -/
def sceneRecordsFor (po : PersistOracle) (req : ConvertRequest) (seriesId : String)
    (successfulResults : List ItemResult) : List SceneRecord :=
  successfulResults.enum.filterMap (sceneRecordOf po req seriesId)

/-- The auto-save block (lines 450-557): returns the final value of
`savedSeriesId` together with the list of child rows actually inserted into
`emoticon_scenes`.  A throw of `getSupabaseClient` or of the series insert is
caught by the `saveError` handler, leaving `savedSeriesId` null; a bulk-insert
error is only logged, leaving the already-assigned id in place. -/
def autoSave (po : PersistOracle) (req : ConvertRequest) (results : List ItemResult)
    (successCount : Nat) : Option String × List SceneRecord :=
  if persistGuard req successCount then
    if po.clientOk then
      let _categories := classifyCategories po.classifySvc
      match po.seriesInsert with
      | Except.error _ => (none, [])
      | Except.ok seriesId =>
        let successfulResults :=
          results.filter (fun r => r.success && jsTruthy r.transparentDataUrl)
        let sceneRecords := sceneRecordsFor po req seriesId successfulResults
        let inserted :=
          if !sceneRecords.isEmpty && po.bulkInsertOk then sceneRecords else []
        (some seriesId, inserted)
    else (none, [])
  else (none, [])

/-- Environment facts checked by the handler: the Replicate token (line 198)
and `resolveReplicateModelById` (lines 26-39, called at line 220; an error
propagates to the outer catch as a 500). -/
structure Env where
  tokenPresent : Bool
  resolveModel : String → Except String String

/-- The JSON body of the 200 response (lines 559-567). -/
structure SuccessBody where
  mode : Mode
  results : List ItemResult
  total : Nat
  successCount : Nat
  failedCount : Nat
  savedSeriesId : Option String
deriving DecidableEq, Repr

/-- A route response: either the 200 body or an error status with message. -/
inductive ApiResponse
  | ok (body : SuccessBody)
  | err (status : Nat) (message : String)
deriving DecidableEq, Repr

/-- `itemCount` (line 206): number of prompts in text2img-like modes, number
of images in img2img mode. -/
def itemCountOf (req : ConvertRequest) : Nat :=
  if actualMode req.mode == Mode.text2img then (req.prompts.getD []).length
  else (req.images.getD []).length

/-- The `POST` handler of `src/app/api/test-flux-lora/route.ts` (lines
169-579): validation, the sequential generation loop, aggregate counts, the
optional auto-save, and the response body.  `st0` is the process-wide
translation-cache state at entry. -/
def POST (env : Env) (o : SynthOracle) (po : PersistOracle) (st0 : TransState)
    (req : ConvertRequest) : ApiResponse :=
  if req.mode == Mode.img2img && !jsTruthyList req.images then
    ApiResponse.err 400 "Missing required field for img2img mode: images (array of base64 data URLs)"
  else if actualMode req.mode == Mode.text2img && !jsTruthyList req.prompts then
    ApiResponse.err 400 "Missing required field for text2img/preview/batch mode: prompts (array of text prompts)"
  else if !env.tokenPresent then
    ApiResponse.err 500 "REPLICATE_API_TOKEN not configured"
  else if !jsTruthy req.id then
    ApiResponse.err 400 "model id is required"
  else
    match env.resolveModel (req.id.getD "") with
    | Except.error e => ApiResponse.err 500 e
    | Except.ok _model =>
      let run := runItems o req.mode req.style req.theme req.monochromeOnly
        req.prompts req.images st0 (List.range (itemCountOf req))
      let results := run.1
      let successCount := (results.filter (fun r => r.success)).length
      let saved := autoSave po req results successCount
      ApiResponse.ok
        { mode := req.mode
          results := results
          total := itemCountOf req
          successCount := successCount
          failedCount := itemCountOf req - successCount
          savedSeriesId := saved.1 }

/-! ## The save route (`src/app/api/emoticons/save/route.ts`, lines 92-193)

Only the per-item body of the `for (const ... of modifiedImages)` loop is
modelled: the new-vs-existing branch it contains is what claim C9 is about. -/

/-- One entry of `modifiedImages`. -/
structure ModifiedImage where
  sceneId : String
  imageData : String
  name : String
deriving DecidableEq, Repr

/-- Outcomes of the external calls of one loop iteration: the storage upload
(line 109), the max-`scene_number` fetch (line 135, ok = `scene_number` of the
first row if any), the insert (line 151) and the update (line 175). -/
structure SaveItemOracle where
  now : Nat
  uploadOk : Bool
  publicUrl : String
  maxSceneFetch : Except String (Option Nat)
  insertOk : Except String Unit
  updateOk : Except String Unit

/-- Which branch of the new-vs-existing conditional ran. -/
inductive SaveAction
  | inserted
  | updated
deriving DecidableEq, Repr

/-- Line 130: `const isNewScene = ` `` `new_scene_${Date.now()}` `` — a
template string built from the per-call timestamp. -/
def isNewSceneStr (now : Nat) : String := "new_scene_" ++ toString now

/-- One iteration of the save loop (lines 92-192): upload, then the
`if (isNewScene)` conditional choosing insert vs update.  A thrown Supabase
error is `Except.error` (it aborts the whole request via the outer catch);
`ok` carries the `sceneId` echoed into `results` and which branch ran. -/
def processModifiedImage (o : SaveItemOracle) (img : ModifiedImage) :
    Except String (String × SaveAction) :=
  if !o.uploadOk then Except.error "upload failed"
  else
    if jsTruthyStr (isNewSceneStr o.now) then
      match o.maxSceneFetch with
      | Except.error e => Except.error e
      | Except.ok maxRow =>
        let maxSceneNumber := maxRow.getD 0
        let _newSceneNumber := maxSceneNumber + 1
        match o.insertOk with
        | Except.error e => Except.error e
        | Except.ok _ => Except.ok (img.sceneId, SaveAction.inserted)
    else
      match o.updateOk with
      | Except.error e => Except.error e
      | Except.ok _ => Except.ok (img.sceneId, SaveAction.updated)

/-! ## Theorems -/

/-- `List.lookup` skips a block in which the key does not occur. -/
theorem lookup_append_right {l1 l2 : List (String × String)} {a : String}
    (h : l1.lookup a = none) : (l1 ++ l2).lookup a = l2.lookup a := by
  induction l1 with
  | nil => rfl
  | cons p rest ih =>
    obtain ⟨k, v⟩ := p
    rw [List.cons_append]
    rw [List.lookup] at h ⊢
    cases hak : a == k with
    | true => rw [hak] at h; exact Option.noConfusion h
    | false => rw [hak] at h; exact ih h

/-- C5 (corrected), counterexample to the claim as stated: when the language
service fails, nothing is cached, so a second `translateToEnglish` call with
the very same source text invokes the service a second time — the service is
not invoked at most once per distinct source text. -/
theorem translation_cache_at_most_once_counterexample :
    ¬ (((translateToEnglish (fun _ => none)
          ((translateToEnglish (fun _ => none) ⟨[], []⟩ "mischievous cat").2)
          "mischievous cat").2).svcCalls.count "mischievous cat" ≤ 1) := by
  decide

/-- C5 (amended): once a `translateToEnglish` call for a text has succeeded,
the translation is cached: the first call invokes the service exactly once and
stores the result, and a second call with the same text returns the cached
value with the state unchanged — in particular without a new external call. -/
theorem translation_cached_after_success (svc : String → Option String) (st : TransState)
    (text tr : String) (hmiss : st.cache.lookup text = none) (hsvc : svc text = some tr) :
    translateToEnglish svc st text
        = (tr, ⟨st.cache ++ [(text, tr)], st.svcCalls ++ [text]⟩) ∧
    translateToEnglish svc ⟨st.cache ++ [(text, tr)], st.svcCalls ++ [text]⟩ text
        = (tr, ⟨st.cache ++ [(text, tr)], st.svcCalls ++ [text]⟩) := by
  constructor
  · unfold translateToEnglish
    rw [hmiss, hsvc]
  · unfold translateToEnglish
    have : ((st.cache ++ [(text, tr)]).lookup text) = some tr := by
      rw [lookup_append_right hmiss]
      simp [List.lookup]
    rw [this]

/-- Witness for the amended C5 theorem at a concrete service and text. -/
theorem translation_cached_after_success_witness :
    translateToEnglish (fun t => some (t ++ " (en)")) ⟨[], []⟩ "나무늘보"
        = ("나무늘보 (en)", ⟨[("나무늘보", "나무늘보 (en)")], ["나무늘보"]⟩) ∧
    translateToEnglish (fun t => some (t ++ " (en)")) ⟨[("나무늘보", "나무늘보 (en)")], ["나무늘보"]⟩ "나무늘보"
        = ("나무늘보 (en)", ⟨[("나무늘보", "나무늘보 (en)")], ["나무늘보"]⟩) := by
  have h := translation_cached_after_success (fun t => some (t ++ " (en)")) ⟨[], []⟩
    "나무늘보" "나무늘보 (en)" (by decide) (by decide)
  simpa using h

/-- C6: the category classifier never throws; a failed language-service call
or a response with no parseable JSON array yields exactly the default
`["daily"]`, and a parsed array is filtered to the fixed taxonomy, so the
output only ever contains valid taxonomy members (or is the default). -/
theorem classify_fallback_and_filter (resp : Option String) :
    (resp = none → classifyCategories resp = ["daily"]) ∧
    (∀ raw, resp = some raw → extractedJsonArray raw = none →
        classifyCategories resp = ["daily"]) ∧
    (∀ raw elems, resp = some raw → extractedJsonArray raw = some elems →
        classifyCategories resp
            = (elems.filterMap id).filter (fun c => VALID_CATEGORIES.contains c)) ∧
    (∀ c, c ∈ classifyCategories resp → c ∈ VALID_CATEGORIES) := by
  refine ⟨?_, ?_, ?_, ?_⟩
  · rintro rfl; rfl
  · rintro raw rfl h
    simp [classifyCategories, h]
  · rintro raw elems rfl h
    simp [classifyCategories, h]
  · intro c hc
    cases resp with
    | none =>
      simp [classifyCategories] at hc
      simp [hc, VALID_CATEGORIES]
    | some raw =>
      cases h : extractedJsonArray raw with
      | none =>
        simp [classifyCategories, h] at hc
        simp [hc, VALID_CATEGORIES]
      | some elems =>
        simp only [classifyCategories, h] at hc
        have := (List.mem_filter.mp hc).2
        simpa using this

/-- Witness for C6 at concrete language-service responses: free text around an
array (filtered), free text with no array (default), and a thrown call
(default). -/
theorem classify_fallback_and_filter_witness :
    classifyCategories (some "Sure! Here are the categories: [\"cute\", \"zebra\"]") = ["cute"] ∧
    classifyCategories (some "I could not find suitable categories.") = ["daily"] ∧
    classifyCategories none = ["daily"] := by
  refine ⟨?_, ?_, ?_⟩
  · exact ((classify_fallback_and_filter
      (some "Sure! Here are the categories: [\"cute\", \"zebra\"]")).2.2.1 _
      [some "cute", some "zebra"] rfl (by decide)).trans (by decide)
  · exact (classify_fallback_and_filter
      (some "I could not find suitable categories.")).2.1 _ rfl (by decide)
  · exact (classify_fallback_and_filter none).1 rfl

/-- C10: when the response does contain a parseable JSON array but none of its
elements is a taxonomy member, the classifier returns the empty list — not the
default tag; the default applies only to the no-array and error paths. -/
theorem classify_empty_when_no_valid_tags (raw : String) (elems : List (Option String))
    (hext : extractedJsonArray raw = some elems)
    (hnone : elems.all (fun e => e.all (fun s => !VALID_CATEGORIES.contains s)) = true) :
    classifyCategories (some raw) = [] ∧ classifyCategories (some raw) ≠ ["daily"] := by
  have h : classifyCategories (some raw)
      = (elems.filterMap id).filter (fun c => VALID_CATEGORIES.contains c) := by
    simp [classifyCategories, hext]
  have hnil : (elems.filterMap id).filter (fun c => VALID_CATEGORIES.contains c) = [] := by
    rw [List.filter_eq_nil_iff]
    intro a ha
    have hmem : some a ∈ elems := by
      rcases List.mem_filterMap.mp ha with ⟨b, hb, hid⟩
      cases hid
      exact hb
    have := List.all_eq_true.mp hnone _ hmem
    simp only [Option.all_some] at this
    simpa using this
  rw [h, hnil]
  exact ⟨rfl, by decide⟩

/-- Witness for C10: a well-formed array of out-of-taxonomy tags classifies to
the empty list. -/
theorem classify_empty_when_no_valid_tags_witness :
    classifyCategories (some "[\"zebra\", \"dragon\"]") = [] := by
  exact (classify_empty_when_no_valid_tags "[\"zebra\", \"dragon\"]"
    [some "zebra", some "dragon"] (by decide) (by decide)).1

/-- C9: in the save route, the new-vs-existing condition is the per-call
timestamp string `new_scene_${Date.now()}`, which is non-empty and hence
truthy for every timestamp, so every processed item takes the insert branch:
the update-in-place branch is unreachable. -/
theorem save_route_insert_branch_always (o : SaveItemOracle) (img : ModifiedImage) :
    jsTruthyStr (isNewSceneStr o.now) = true ∧
    ((processModifiedImage o img).toOption.all
        (fun p => p.2 == SaveAction.inserted)) = true := by
  have h1 : jsTruthyStr (isNewSceneStr o.now) = true := by
    simp only [jsTruthyStr, isNewSceneStr, Bool.not_eq_true']
    rw [beq_eq_false_iff_ne]
    intro h
    have hlen := congrArg String.length h
    simp [String.length_append] at hlen
    exact absurd hlen.1 (by decide)
  refine ⟨h1, ?_⟩
  unfold processModifiedImage
  cases hu : o.uploadOk with
  | false => rfl
  | true =>
    rw [if_neg (by decide), if_pos h1]
    cases o.maxSceneFetch with
    | error e => rfl
    | ok m =>
      cases o.insertOk with
      | error e => rfl
      | ok u => rfl

/-- Identity-like language service used by concrete witnesses. -/
def demoSvc : String → Option String := fun t => some t

/-- C7 (corrected), counterexample: an image-to-image request is never in
batch mode, yet with a theme present (and a prompt given) the compiled prompt
does contain the theme context clause — contradicting `no theme clause in
non-batch modes`. -/
theorem theme_clause_nonbatch_counterexample :
    isBatchMode Mode.img2img = false ∧
    (composeFinalPromptI2I demoSvc ⟨[], []⟩ (some "waving hand") (some "cafe")).1
      = "waving hand, in context of cafe" ∧
    jsStartsWith (stylePromptI2I "waving hand, in context of cafe" none true)
      "waving hand, in context of cafe" = true := by
  decide

/-- C7 (amended): in text-to-image compilation the theme context clause is
appended exactly when the theme is truthy and the request is in batch mode;
in image-to-image compilation (reached only in `img2img` mode, which is never
batch mode) the clause is appended whenever the theme is truthy and a prompt
is given. -/
theorem theme_clause_by_mode (svc : String → Option String) (st : TransState)
    (userPrompt : String) (promptOpt theme : Option String) (b : Bool) :
    (¬(jsTruthy theme = true ∧ b = true) →
        (composeFinalPromptT2I svc st userPrompt theme b).1
          = (translateToEnglish svc st userPrompt).1) ∧
    (jsTruthy theme = true → b = true →
        (composeFinalPromptT2I svc st userPrompt theme b).1
          = (translateToEnglish svc st userPrompt).1 ++ ", in context of "
            ++ (translateToEnglish svc (translateToEnglish svc st userPrompt).2
                (theme.getD "")).1) ∧
    (jsTruthy promptOpt = true → jsTruthy theme = true →
        (composeFinalPromptI2I svc st promptOpt theme).1
          = (translateToEnglish svc st (promptOpt.getD "")).1 ++ ", in context of "
            ++ (translateToEnglish svc (translateToEnglish svc st (promptOpt.getD "")).2
                (theme.getD "")).1) := by
  refine ⟨?_, ?_, ?_⟩
  · intro hn
    unfold composeFinalPromptT2I
    rw [if_neg (fun hc => hn (Bool.and_eq_true _ _ ▸ hc))]
  · intro ht hb
    unfold composeFinalPromptT2I
    rw [if_pos (by rw [ht, hb]; rfl)]
  · intro hp ht
    unfold composeFinalPromptI2I
    rw [if_pos hp, if_pos ht]

/-- Witness for the amended C7 theorem: with an identity translation service,
a themed batch-mode prompt gains the clause and a themed non-batch
text-to-image prompt does not. -/
theorem theme_clause_by_mode_witness :
    (composeFinalPromptT2I demoSvc ⟨[], []⟩ "dancing" (some "picnic") true).1
      = "dancing, in context of picnic" ∧
    (composeFinalPromptT2I demoSvc ⟨[], []⟩ "dancing" (some "picnic") false).1
      = "dancing" := by
  constructor
  · exact ((theme_clause_by_mode demoSvc ⟨[], []⟩ "dancing" (some "dancing")
      (some "picnic") true).2.1 (by decide) rfl).trans (by decide)
  · exact ((theme_clause_by_mode demoSvc ⟨[], []⟩ "dancing" (some "dancing")
      (some "picnic") false).1 (by simp)).trans (by decide)

/-- Every branch of the per-item pipeline records the item's own index. -/
theorem processItem_index (o : SynthOracle) (mode : Mode) (style : Option Style)
    (theme : Option String) (mono : Bool) (prompts images : Option (List String))
    (st : TransState) (i : Nat) :
    (processItem o mode style theme mono prompts images st i).1.index = i := by
  unfold processItem
  rcases hs : o.stage1 i with e | out
  · simp only [hs]; rfl
  · simp only [hs]
    rcases he : extractStage1Url out with e | u
    · simp only [he]; rfl
    · simp only [he]
      rcases hc : (actualMode mode == Mode.text2img) && !(isPreviewMode mode) with _ | _
      · simp only [hc, Bool.false_eq_true, if_false]
        rfl
      · simp only [hc]
        rw [if_pos trivial]
        rcases o.stage2 i with e | out2
        · rfl
        · rfl

/-- The sequential loop emits one result per requested index, in order. -/
theorem runItems_map_index (o : SynthOracle) (mode : Mode) (style : Option Style)
    (theme : Option String) (mono : Bool) (prompts images : Option (List String)) :
    ∀ (idxs : List Nat) (st : TransState),
      ((runItems o mode style theme mono prompts images st idxs).1).map ItemResult.index
        = idxs := by
  intro idxs
  induction idxs with
  | nil => intro st; rfl
  | cons i rest ih =>
    intro st
    simp only [runItems, List.map_cons]
    rw [processItem_index, ih]

/-- A 200 response determines the body: it is exactly the record built from
the sequential run, the aggregate counts and the auto-save outcome. -/
theorem POST_ok_elim (env : Env) (o : SynthOracle) (po : PersistOracle) (st0 : TransState)
    (req : ConvertRequest) (body : SuccessBody)
    (h : POST env o po st0 req = ApiResponse.ok body) :
    body =
      { mode := req.mode
        results := (runItems o req.mode req.style req.theme req.monochromeOnly
            req.prompts req.images st0 (List.range (itemCountOf req))).1
        total := itemCountOf req
        successCount := ((runItems o req.mode req.style req.theme req.monochromeOnly
            req.prompts req.images st0 (List.range (itemCountOf req))).1.filter
              (fun r => r.success)).length
        failedCount := itemCountOf req - ((runItems o req.mode req.style req.theme
            req.monochromeOnly req.prompts req.images st0
            (List.range (itemCountOf req))).1.filter (fun r => r.success)).length
        savedSeriesId := (autoSave po req
            ((runItems o req.mode req.style req.theme req.monochromeOnly
              req.prompts req.images st0 (List.range (itemCountOf req))).1)
            (((runItems o req.mode req.style req.theme req.monochromeOnly
              req.prompts req.images st0 (List.range (itemCountOf req))).1.filter
                (fun r => r.success)).length)).1 } := by
  unfold POST at h
  split at h
  · exact ApiResponse.noConfusion h
  · split at h
    · exact ApiResponse.noConfusion h
    · split at h
      · exact ApiResponse.noConfusion h
      · split at h
        · exact ApiResponse.noConfusion h
        · split at h
          · exact ApiResponse.noConfusion h
          · injection h with hb
            exact hb.symm

/-- C1: every successful response carries exactly one ItemResult per input
item, in original index order (the i-th result has index i), with
`successCount` the number of successful results, `failedCount` the remainder,
and `total` the item count. -/
theorem batch_result_alignment (env : Env) (o : SynthOracle) (po : PersistOracle)
    (st0 : TransState) (req : ConvertRequest) (body : SuccessBody)
    (h : POST env o po st0 req = ApiResponse.ok body) :
    body.results.length = itemCountOf req ∧
    body.results.map ItemResult.index = List.range (itemCountOf req) ∧
    body.successCount = (body.results.filter (fun r => r.success)).length ∧
    body.failedCount = itemCountOf req - body.successCount ∧
    body.total = itemCountOf req := by
  have hb := POST_ok_elim env o po st0 req body h
  subst hb
  refine ⟨?_, ?_, rfl, rfl, rfl⟩
  · have hmap := runItems_map_index o req.mode req.style req.theme req.monochromeOnly
      req.prompts req.images (List.range (itemCountOf req)) st0
    have := congrArg List.length hmap
    simpa using this
  · exact runItems_map_index o req.mode req.style req.theme req.monochromeOnly
      req.prompts req.images (List.range (itemCountOf req)) st0

/-- Environment used by concrete witnesses: token present, model id resolves. -/
def demoEnv : Env := ⟨true, fun _ => Except.ok "owner/flux-model"⟩

/-- Persistence oracle for witnesses that do not request saving. -/
def noPersist : PersistOracle :=
  ⟨false, none, Except.error "unused", fun _ => false, fun _ => "", false⟩

/-- Oracle for the C1 witness: item 0 succeeds end to end, item 1's Stage 1
call rejects. -/
def c1Oracle : SynthOracle :=
  ⟨demoSvc,
   fun i => if i == 0 then Except.ok (SynthOutput.str "http://img.host/a.webp")
            else Except.error "boom",
   fun _ => Except.ok (SynthOutput.str "http://img.host/b.webp"),
   fun _ => some "data:image/png;base64,AAAA"⟩

/-- Request for the C1 witness: two prompts, text2img, no persistence. -/
def c1Req : ConvertRequest :=
  ⟨some "m1", none, some ["smiling", "crying"], Mode.text2img, none, none, true,
   false, none, none, none⟩

/-- The response body the model produces for the C1 witness run. -/
def c1Body : SuccessBody :=
  { mode := Mode.text2img
    results :=
      [{ index := 0, prompt := some "smiling", originalDataUrl := none,
         generatedUrl := some "http://img.host/b.webp",
         transparentDataUrl := some "data:image/png;base64,AAAA",
         success := true, error := none },
       { index := 1, prompt := some "crying", originalDataUrl := none,
         generatedUrl := none, transparentDataUrl := none,
         success := false, error := some "boom" }]
    total := 2
    successCount := 1
    failedCount := 1
    savedSeriesId := none }

/-- Witness for C1: a concrete two-item batch with one failure. -/
theorem batch_result_alignment_witness :
    c1Body.results.length = itemCountOf c1Req ∧
    c1Body.results.map ItemResult.index = List.range (itemCountOf c1Req) ∧
    c1Body.successCount = (c1Body.results.filter (fun r => r.success)).length ∧
    c1Body.failedCount = itemCountOf c1Req - c1Body.successCount ∧
    c1Body.total = itemCountOf c1Req :=
  batch_result_alignment demoEnv c1Oracle noPersist ⟨[], []⟩ c1Req c1Body (by decide)

/-- Oracle for the C2 counterexample: Stage 1 resolves to a valid URL, Stage 2
resolves to an object carrying no URL field (malformed, non-URL output). -/
def c2Oracle : SynthOracle :=
  ⟨demoSvc,
   fun _ => Except.ok (SynthOutput.str "http://img.host/stage1.webp"),
   fun _ => Except.ok (SynthOutput.obj none),
   fun _ => some "data:image/png;base64,BBBB"⟩

/-- Request for the C2 counterexample: one prompt, plain text2img
(non-preview), no persistence. -/
def c2Req : ConvertRequest :=
  ⟨some "m1", none, some ["smiling"], Mode.text2img, none, none, true,
   false, none, none, none⟩

/-- C2 (corrected), counterexample: in non-preview text-to-image mode with
Stage 1 succeeding and Stage 2 returning malformed (non-URL) output, the item
is NOT reported failed — it is reported successful and Stage 1's output is
substituted as the item's final image. -/
theorem stage2_malformed_substitution_counterexample :
    POST demoEnv c2Oracle noPersist ⟨[], []⟩ c2Req
      = ApiResponse.ok
          { mode := Mode.text2img
            results :=
              [{ index := 0, prompt := some "smiling", originalDataUrl := none,
                 generatedUrl := some "http://img.host/stage1.webp",
                 transparentDataUrl := some "data:image/png;base64,BBBB",
                 success := true, error := none }]
            total := 1
            successCount := 1
            failedCount := 0
            savedSeriesId := none } := by
  decide

/-- C2 (amended): in non-preview text-to-image mode, when Stage 1 succeeds and
the Stage 2 external call itself rejects, the item is reported failed with the
error recorded and no image — Stage 1's output is not substituted (and each
item's outcome is determined by its own oracle entries alone, leaving other
items unaffected); but when the Stage 2 call resolves to a malformed value
with no extractable URL, the Stage 1 URL is silently kept and the item is
reported successful. -/
theorem stage2_rejection_fails_item (o : SynthOracle) (mode : Mode) (style : Option Style)
    (theme : Option String) (mono : Bool) (prompts images : Option (List String))
    (st : TransState) (i : Nat) (out : SynthOutput) (u : String)
    (hmode : actualMode mode = Mode.text2img) (hprev : isPreviewMode mode = false)
    (h1 : o.stage1 i = Except.ok out) (hx : extractStage1Url out = Except.ok u) :
    (∀ e, o.stage2 i = Except.error e →
        (processItem o mode style theme mono prompts images st i).1
          = mkFailure true prompts images i e) ∧
    (o.stage2 i = Except.ok (SynthOutput.obj none) →
        (processItem o mode style theme mono prompts images st i).1
          = mkSuccess true prompts images i u (o.fetchResize i)) := by
  have hcond : ((actualMode mode == Mode.text2img) && !(isPreviewMode mode)) = true := by
    rw [hmode, hprev]; rfl
  have hT : (actualMode mode == Mode.text2img) = true := by rw [hmode]; rfl
  constructor
  · intro e h2
    unfold processItem
    simp only [h1, hx]
    rw [if_pos hcond]
    simp [h2, hT]
  · intro h2
    unfold processItem
    simp only [h1, hx]
    rw [if_pos hcond]
    simp [h2, hT]
    rfl

/-- Oracle for the C2 amended witness: Stage 1 succeeds, Stage 2 rejects. -/
def c2bOracle : SynthOracle :=
  ⟨demoSvc,
   fun _ => Except.ok (SynthOutput.str "http://img.host/stage1.webp"),
   fun _ => Except.error "rate limited",
   fun _ => some "data:image/png;base64,CCCC"⟩

/-- Witness for the amended C2 theorem: a rejecting Stage 2 call fails the
item, recording its error. -/
theorem stage2_rejection_fails_item_witness :
    (processItem c2bOracle Mode.text2img none none true (some ["smiling"]) none
        ⟨[], []⟩ 0).1
      = mkFailure true (some ["smiling"]) none 0 "rate limited" :=
  (stage2_rejection_fails_item c2bOracle Mode.text2img none none true (some ["smiling"]) none
    ⟨[], []⟩ 0 (SynthOutput.str "http://img.host/stage1.webp") "http://img.host/stage1.webp"
    rfl rfl rfl (by decide)).1 "rate limited" rfl

/-- C8: for an item whose synthesis succeeded, a post-processing failure
(`fetchResize` throwing) does not fail the item: it is still reported with
`success = true` and its generated URL, but with no normalized image data. -/
theorem postprocessing_failure_degrades (o : SynthOracle) (mode : Mode) (style : Option Style)
    (theme : Option String) (mono : Bool) (prompts images : Option (List String))
    (st : TransState) (i : Nat) (out out2 : SynthOutput) (u : String)
    (h1 : o.stage1 i = Except.ok out) (hx : extractStage1Url out = Except.ok u)
    (h2 : o.stage2 i = Except.ok out2) (hpp : o.fetchResize i = none) :
    ((processItem o mode style theme mono prompts images st i).1).success = true ∧
    ((processItem o mode style theme mono prompts images st i).1).transparentDataUrl = none ∧
    ((processItem o mode style theme mono prompts images st i).1).generatedUrl
      = some (if (actualMode mode == Mode.text2img) && !(isPreviewMode mode)
          then extractStage2Url u out2 else u) := by
  unfold processItem
  simp only [h1, hx]
  rcases hc : (actualMode mode == Mode.text2img) && !(isPreviewMode mode) with _ | _
  · simp only [hc, Bool.false_eq_true, if_false]
    exact ⟨rfl, by simp [mkSuccess, hpp], rfl⟩
  · simp only [hc]
    rw [if_pos trivial, if_pos trivial]
    simp only [h2]
    exact ⟨rfl, by simp [mkSuccess, hpp], rfl⟩

/-- Oracle for the C8 witness: both synthesis calls succeed, post-processing
throws. -/
def c8Oracle : SynthOracle :=
  ⟨demoSvc,
   fun _ => Except.ok (SynthOutput.str "http://img.host/s1.webp"),
   fun _ => Except.ok (SynthOutput.arr ["http://img.host/s2.webp"]),
   fun _ => none⟩

/-- Witness for C8 at a concrete batch-mode item. -/
theorem postprocessing_failure_degrades_witness :
    ((processItem c8Oracle Mode.batch none none true (some ["hugging"]) none
        ⟨[], []⟩ 0).1).success = true ∧
    ((processItem c8Oracle Mode.batch none none true (some ["hugging"]) none
        ⟨[], []⟩ 0).1).transparentDataUrl = none ∧
    ((processItem c8Oracle Mode.batch none none true (some ["hugging"]) none
        ⟨[], []⟩ 0).1).generatedUrl
      = some (if (actualMode Mode.batch == Mode.text2img) && !(isPreviewMode Mode.batch)
          then extractStage2Url "http://img.host/s1.webp"
            (SynthOutput.arr ["http://img.host/s2.webp"]) else "http://img.host/s1.webp") :=
  postprocessing_failure_degrades c8Oracle Mode.batch none none true (some ["hugging"]) none
    ⟨[], []⟩ 0 (SynthOutput.str "http://img.host/s1.webp")
    (SynthOutput.arr ["http://img.host/s2.webp"]) "http://img.host/s1.webp"
    rfl rfl rfl rfl

/-- Characterization of `autoSave`'s returned aggregate id: non-null exactly
when the guard held, the client was constructible and the series insert
succeeded; a failed insert aborts with no child rows; a successful insert
fixes the id independently of uploads and of the bulk insert. -/
theorem autoSave_spec (po : PersistOracle) (req : ConvertRequest) (results : List ItemResult)
    (successCount : Nat) :
    ((autoSave po req results successCount).1 ≠ none ↔
      (persistGuard req successCount = true ∧ po.clientOk = true ∧
        ∃ sid, po.seriesInsert = Except.ok sid)) ∧
    (∀ e, po.seriesInsert = Except.error e →
        autoSave po req results successCount = (none, [])) ∧
    (∀ sid, po.seriesInsert = Except.ok sid → persistGuard req successCount = true →
        po.clientOk = true → (autoSave po req results successCount).1 = some sid) := by
  cases hg : persistGuard req successCount with
  | false =>
    refine ⟨?_, ?_, ?_⟩
    · simp [autoSave, hg]
    · intro e he; simp [autoSave, hg]
    · intro sid hsid hguard hco; exact Bool.noConfusion hguard
  | true =>
    cases hcl : po.clientOk with
    | false =>
      refine ⟨?_, ?_, ?_⟩
      · simp [autoSave, hg, hcl]
      · intro e he; simp [autoSave, hg, hcl]
      · intro sid hsid hguard hco; exact Bool.noConfusion hco
    | true =>
      rcases hsi : po.seriesInsert with e | sid
      · refine ⟨?_, ?_, ?_⟩
        · simp [autoSave, hg, hcl, hsi]
        · intro e2 he2; simp [autoSave, hg, hcl, hsi]
        · intro sid hs2 hguard hco; exact Except.noConfusion hs2
      · refine ⟨?_, ?_, ?_⟩
        · simp [autoSave, hg, hcl, hsi]
        · intro e he; exact Except.noConfusion he
        · intro sid2 hs2 hguard hco
          injection hs2 with hss
          simp [autoSave, hg, hcl, hsi, hss]

/-- C3: for every successful response, the returned aggregate id is non-null
exactly when persistence was requested (saveToDb with truthy owner id and
character), at least one item succeeded, the datastore client was available
and the aggregate-record insert succeeded; an insert failure aborts the whole
persistence phase with no child rows and a null id, while after a successful
insert the id is returned regardless of upload or bulk-insert outcomes. -/
theorem persistence_id_iff_creation (env : Env) (o : SynthOracle) (po : PersistOracle)
    (st0 : TransState) (req : ConvertRequest) (body : SuccessBody)
    (h : POST env o po st0 req = ApiResponse.ok body) :
    (body.savedSeriesId ≠ none ↔
      (persistGuard req body.successCount = true ∧ po.clientOk = true ∧
        ∃ sid, po.seriesInsert = Except.ok sid)) ∧
    (∀ e, po.seriesInsert = Except.error e →
        autoSave po req body.results body.successCount = (none, [])) ∧
    (∀ sid, po.seriesInsert = Except.ok sid → persistGuard req body.successCount = true →
        po.clientOk = true → body.savedSeriesId = some sid) := by
  have hb := POST_ok_elim env o po st0 req body h
  subst hb
  exact autoSave_spec po req _ _

/-- Persistence oracle for the C3 witness: everything succeeds. -/
def c3Persist : PersistOracle :=
  ⟨true, some "[\"cute\"]", Except.ok "series-1", fun _ => true,
   fun i => "https://cdn.example/" ++ toString i ++ ".png", true⟩

/-- Request for the C3 witness: one prompt with persistence requested. -/
def c3Req : ConvertRequest :=
  ⟨some "m1", none, some ["smiling"], Mode.text2img, none, none, true,
   true, some "user-1", some "bear", none⟩

/-- The response body of the C3 witness run. -/
def c3Body : SuccessBody :=
  { mode := Mode.text2img
    results :=
      [{ index := 0, prompt := some "smiling", originalDataUrl := none,
         generatedUrl := some "http://img.host/b.webp",
         transparentDataUrl := some "data:image/png;base64,AAAA",
         success := true, error := none }]
    total := 1
    successCount := 1
    failedCount := 0
    savedSeriesId := some "series-1" }

/-- Witness for C3: when the aggregate insert succeeds and the guard holds,
the id it generated is returned. -/
theorem persistence_id_iff_creation_witness :
    c3Body.savedSeriesId = some "series-1" :=
  (persistence_id_iff_creation demoEnv c1Oracle c3Persist ⟨[], []⟩ c3Req c3Body
    (by decide)).2.2 "series-1" rfl (by decide) rfl

/-- The rows collected by the upload fan-out carry exactly the indices of the
successfully post-processed items whose upload succeeded, in order. -/
theorem sceneRecordsFor_scene_numbers (po : PersistOracle) (req : ConvertRequest)
    (sid : String) :
    ∀ (n : Nat) (l : List ItemResult),
      ((List.enumFrom n l).filterMap (sceneRecordOf po req sid)).map SceneRecord.scene_number
        = (l.filter (fun r => po.upload r.index)).map ItemResult.index := by
  intro n l
  induction l generalizing n with
  | nil => rfl
  | cons r rest ih =>
    cases hu : po.upload r.index with
    | false =>
      simp [List.enumFrom, List.filterMap_cons, sceneRecordOf, hu, List.filter_cons,
        ih (n + 1)]
    | true =>
      simp [List.enumFrom, List.filterMap_cons, sceneRecordOf, hu, List.filter_cons,
        ih (n + 1)]

/-- `autoSave` under a held guard, an available client and a successful
aggregate insert: the id is the inserted one, and the child rows are the
fan-out collection when the bulk insert succeeds on a non-empty collection. -/
theorem autoSave_ok_eq (po : PersistOracle) (req : ConvertRequest) (results : List ItemResult)
    (successCount : Nat) (sid : String)
    (hg : persistGuard req successCount = true) (hc : po.clientOk = true)
    (hs : po.seriesInsert = Except.ok sid) :
    autoSave po req results successCount
      = (some sid,
         if !(sceneRecordsFor po req sid (results.filter
              (fun r => r.success && jsTruthy r.transparentDataUrl))).isEmpty
            && po.bulkInsertOk
         then sceneRecordsFor po req sid (results.filter
              (fun r => r.success && jsTruthy r.transparentDataUrl))
         else []) := by
  unfold autoSave
  rw [if_pos hg, if_pos hc]
  simp only [hs]

/-- C4: after a successful aggregate creation with a successful bulk insert,
the inserted child rows are exactly (by scene number, hence by count) the
successfully post-processed items whose individual upload succeeded; an
individual upload failure skips only its own item, and the aggregate id is
returned regardless. -/
theorem persisted_children_exactly_uploaded (po : PersistOracle) (req : ConvertRequest)
    (results : List ItemResult) (successCount : Nat) (sid : String)
    (hg : persistGuard req successCount = true) (hc : po.clientOk = true)
    (hs : po.seriesInsert = Except.ok sid) (hb : po.bulkInsertOk = true) :
    (autoSave po req results successCount).1 = some sid ∧
    ((autoSave po req results successCount).2).map SceneRecord.scene_number
      = ((results.filter (fun r => r.success && jsTruthy r.transparentDataUrl)).filter
          (fun r => po.upload r.index)).map ItemResult.index ∧
    ((autoSave po req results successCount).2).length
      = ((results.filter (fun r => r.success && jsTruthy r.transparentDataUrl)).filter
          (fun r => po.upload r.index)).length := by
  have hrec : (sceneRecordsFor po req sid (results.filter
        (fun r => r.success && jsTruthy r.transparentDataUrl))).map SceneRecord.scene_number
      = ((results.filter (fun r => r.success && jsTruthy r.transparentDataUrl)).filter
          (fun r => po.upload r.index)).map ItemResult.index :=
    sceneRecordsFor_scene_numbers po req sid 0
      (results.filter (fun r => r.success && jsTruthy r.transparentDataUrl))
  have hlen : (sceneRecordsFor po req sid (results.filter
        (fun r => r.success && jsTruthy r.transparentDataUrl))).length
      = ((results.filter (fun r => r.success && jsTruthy r.transparentDataUrl)).filter
          (fun r => po.upload r.index)).length := by
    have := congrArg List.length hrec
    simpa using this
  have hpair : autoSave po req results successCount
      = (some sid, sceneRecordsFor po req sid (results.filter
          (fun r => r.success && jsTruthy r.transparentDataUrl))) := by
    rw [autoSave_ok_eq po req results successCount sid hg hc hs, hb]
    congr 1
    cases hS : (sceneRecordsFor po req sid (results.filter
        (fun r => r.success && jsTruthy r.transparentDataUrl))).isEmpty with
    | true => rw [List.isEmpty_iff.mp hS]; simp
    | false => simp [hS]
  rw [hpair]
  exact ⟨rfl, hrec, hlen⟩

/-- Results list for the C4 witness, the scenario of spec property 6: seven
items, five successfully post-processed (indices 0-4), two degraded by
post-processing failure (5, 6). -/
def c4Results : List ItemResult :=
  [⟨0, some "a", none, some "http://u/0", some "data:image/png;base64,d0", true, none⟩,
   ⟨1, some "b", none, some "http://u/1", some "data:image/png;base64,d1", true, none⟩,
   ⟨2, some "c", none, some "http://u/2", some "data:image/png;base64,d2", true, none⟩,
   ⟨3, some "d", none, some "http://u/3", some "data:image/png;base64,d3", true, none⟩,
   ⟨4, some "e", none, some "http://u/4", some "data:image/png;base64,d4", true, none⟩,
   ⟨5, some "f", none, some "http://u/5", none, true, none⟩,
   ⟨6, some "g", none, some "http://u/6", none, true, none⟩]

/-- Persistence oracle for the C4 witness: the upload of scene 2 fails, all
else succeeds. -/
def c4Persist : PersistOracle :=
  ⟨true, none, Except.ok "series-7", fun i => !(i == 2),
   fun i => "https://cdn.example/s/" ++ toString i ++ ".png", true⟩

/-- Request for the C4 witness. -/
def c4Req : ConvertRequest :=
  ⟨some "m1", none, some ["a", "b", "c", "d", "e", "f", "g"], Mode.batch, none,
   some "daily life", true, true, some "user-1", some "bear", none⟩

/-- Witness for C4, the spec scenario: exactly 4 child rows, id still
returned. -/
theorem persisted_children_exactly_uploaded_witness :
    (autoSave c4Persist c4Req c4Results 7).1 = some "series-7" ∧
    (autoSave c4Persist c4Req c4Results 7).2.length = 4 := by
  have h := persisted_children_exactly_uploaded c4Persist c4Req c4Results 7 "series-7"
    (by decide) rfl rfl rfl
  exact ⟨h.1, h.2.2.trans (by decide)⟩

end Mojilab
